import Mathlib

/-!
Shallow embedding of entity-embed's data-module layer
(`entity_embed/data_modules.py` and the mode-selection part of
`entity_embed/cli.py`).

Record IDs are natural numbers (the CLI coerces the `id` column to `int`).
Attribute values are strings; a `Row` maps attribute names to values.
Per the interface contract (spec section 6), the cluster-label attribute and,
in linkage mode, the source attribute are present on every row, so attribute
lookup is modelled as a total function.

The helper module `entity_embed/data_utils/utils.py` and the dataset classes
(`ClusterDataset`, `RowDataset`, `PairDataset`) are not part of the sources
under verification; where their behaviour matters they are modelled from the
spec (see the individual doc comments). Dataset and dataloader constructions
are modelled as records of the arguments the data modules pass to them.
-/

namespace EntityEmbed

/-- A row of the dataset: a total mapping from attribute name to value. -/
def Row : Type := String → String

/-- A row dict: mapping from integer record ID to row, modelled as the finite
set of IDs together with the row for each ID. -/
structure RowDict where
  ids : Finset Nat
  row : Nat → Row

/-- Modelled from the spec: `row_dict_to_cluster_dict` lives in
`data_utils/utils.py`, which is not among the sources; spec section 4.1
(ClusterIndexer) says it groups a RowStore by the cluster-label attribute,
"producing a mapping from cluster ID to the set of member record IDs".
`clusterLabels` is the key set of that mapping. -/
def clusterLabels (rd : RowDict) (attr : String) : Finset String :=
  rd.ids.image (fun i => rd.row i attr)

/-- Modelled from the spec: the value of the ClusterIndexer's mapping at a
cluster label, i.e. the set of member record IDs carrying that label. -/
def clusterMembers (rd : RowDict) (attr : String) (c : String) : Finset Nat :=
  rd.ids.filter (fun i => rd.row i attr = c)

/-- Modelled from the spec: `cluster_dict_to_id_pairs` (dedup form, in
`data_utils/utils.py`, not among the sources); spec section 4.3 says the
positive pairs of one cluster are "all unordered 2-combinations of that
cluster's members". Unordered pairs over `Nat` IDs are normalised as ordered
pairs `(a, b)` with `a < b`. -/
def clusterPairs (C : Finset Nat) : Finset (Nat × Nat) :=
  (C ×ˢ C).filter (fun p => p.1 < p.2)

/-- Modelled from the spec: dedup-mode `cluster_dict_to_id_pairs` is the
"union over clusters" of each cluster's unordered 2-combinations. -/
def dedupPairs (rd : RowDict) (attr : String) : Finset (Nat × Nat) :=
  (clusterLabels rd attr).biUnion (fun c => clusterPairs (clusterMembers rd attr c))

/-- Modelled from the spec: the left half of `row_dict_to_left_right_id_set`
(`data_utils/utils.py`, not among the sources); spec section 4.2 says any row
whose `source_attr` value equals the left-source value goes left. -/
def leftIdSet (rd : RowDict) (source_attr left_source : String) : Finset Nat :=
  rd.ids.filter (fun i => rd.row i source_attr = left_source)

/-- Modelled from the spec: the right half of `row_dict_to_left_right_id_set`;
spec section 4.2 says all rows whose `source_attr` value differs from the
left-source value go right, so the two sides partition the ID set. -/
def rightIdSet (rd : RowDict) (source_attr left_source : String) : Finset Nat :=
  rd.ids.filter (fun i => rd.row i source_attr ≠ left_source)

/-- Modelled from the spec: the linkage-mode positive pairs of one cluster,
"all (l, r) with l ∈ cluster ∩ left_ids, r ∈ cluster ∩ right_ids"
(spec section 4.3). -/
def clusterPairsLR (C left right : Finset Nat) : Finset (Nat × Nat) :=
  (C ∩ left) ×ˢ (C ∩ right)

/-- Modelled from the spec: linkage-mode `cluster_dict_to_id_pairs` is the
union over clusters of the cross-side pairs of each cluster. -/
def linkagePairs (rd : RowDict) (attr source_attr left_source : String) :
    Finset (Nat × Nat) :=
  (clusterLabels rd attr).biUnion (fun c =>
    clusterPairsLR (clusterMembers rd attr c)
      (leftIdSet rd source_attr left_source)
      (rightIdSet rd source_attr left_source))

/-- Structured rendering of the `ValueError` raised by
`_check_for_common_rows`: the message names the two offending row dicts and
interpolates the intersecting ID set. -/
inductive DataError where
  | commonRows (split1 split2 : String) (commonIds : Finset Nat)
deriving DecidableEq

/-- Embedding of `_check_for_common_rows` (data_modules.py lines 16-38): the
three pairwise key-set intersections are tested in order train/valid,
train/test, valid/test; the first non-empty one raises. -/
def checkForCommonRows (train_row_dict valid_row_dict test_row_dict : RowDict) :
    Except DataError Unit :=
  let train_valid_common_ids := train_row_dict.ids ∩ valid_row_dict.ids
  if train_valid_common_ids ≠ ∅ then
    .error (.commonRows "train_row_dict" "valid_row_dict" train_valid_common_ids)
  else
    let train_test_common_ids := train_row_dict.ids ∩ test_row_dict.ids
    if train_test_common_ids ≠ ∅ then
      .error (.commonRows "train_row_dict" "test_row_dict" train_test_common_ids)
    else
      let valid_test_common_ids := valid_row_dict.ids ∩ test_row_dict.ids
      if valid_test_common_ids ≠ ∅ then
        .error (.commonRows "valid_row_dict" "test_row_dict" valid_test_common_ids)
      else
        .ok ()

/-- Embedding of `DeduplicationDataModule`'s attribute state after `__init__`.
`row_numericalizer` and the loader kwargs are opaque to the data module (they
are stored and passed through; `build_loader_kwargs` from helpers.py is not
among the sources and is modelled as identity passthrough), so they are
modelled as naturals. -/
structure DeduplicationDataModule where
  cluster_attr : String
  row_numericalizer : Nat
  batch_size : Nat
  eval_batch_size : Nat
  train_loader_kwargs : Nat
  eval_loader_kwargs : Nat
  random_seed : Int
  train_row_dict : RowDict
  valid_row_dict : RowDict
  test_row_dict : RowDict
  train_pos_pair_set : Option (Finset (Nat × Nat))
  valid_pos_pair_set : Option (Finset (Nat × Nat))
  test_pos_pair_set : Option (Finset (Nat × Nat))

/-- Embedding of `DeduplicationDataModule.__init__` (lines 42-78): when
`check_for_common_rows` is set, `_check_for_common_rows` runs first and a
failure propagates before any attribute is assigned; on success all three
positive-pair attributes are initialised to `None`. -/
def DeduplicationDataModule.init (train_row_dict valid_row_dict test_row_dict : RowDict)
    (cluster_attr : String) (row_numericalizer batch_size eval_batch_size : Nat)
    (train_loader_kwargs eval_loader_kwargs : Nat) (random_seed : Int)
    (check_for_common_rows : Bool) :
    Except DataError DeduplicationDataModule :=
  let checked : Except DataError Unit :=
    if check_for_common_rows then
      checkForCommonRows train_row_dict valid_row_dict test_row_dict
    else
      .ok ()
  match checked with
  | .error e => .error e
  | .ok _ => .ok
      { cluster_attr := cluster_attr
        row_numericalizer := row_numericalizer
        batch_size := batch_size
        eval_batch_size := eval_batch_size
        train_loader_kwargs := train_loader_kwargs
        eval_loader_kwargs := eval_loader_kwargs
        random_seed := random_seed
        train_row_dict := train_row_dict
        valid_row_dict := valid_row_dict
        test_row_dict := test_row_dict
        train_pos_pair_set := none
        valid_pos_pair_set := none
        test_pos_pair_set := none }

/-- Embedding of `DeduplicationDataModule._set_pair_sets` (lines 80-96): the
`fit` stage recomputes the train and valid pair sets from the corresponding
row dicts; the `test` stage recomputes the test pair set; any other stage
changes nothing. -/
def DeduplicationDataModule.setPairSets (dm : DeduplicationDataModule)
    (stage : Option String) : DeduplicationDataModule :=
  if stage = some "fit" then
    { dm with
      train_pos_pair_set := some (dedupPairs dm.train_row_dict dm.cluster_attr)
      valid_pos_pair_set := some (dedupPairs dm.valid_row_dict dm.cluster_attr) }
  else if stage = some "test" then
    { dm with
      test_pos_pair_set := some (dedupPairs dm.test_row_dict dm.cluster_attr) }
  else
    dm

/-- Embedding of `DeduplicationDataModule.setup` (lines 98-105): it delegates
to `_set_pair_sets` (the remaining statements only log pair counts). -/
def DeduplicationDataModule.setup (dm : DeduplicationDataModule)
    (stage : Option String) : DeduplicationDataModule :=
  dm.setPairSets stage

/-- The arguments the data modules pass to `ClusterDataset.from_cluster_dict`
(the dataset class itself lives outside the verified sources, so the
construction is modelled as this argument record). -/
structure ClusterDatasetArgs where
  row_dict : RowDict
  cluster_attr : String
  row_numericalizer : Nat
  batch_size : Nat
  max_cluster_size_in_batch : Nat
  random_seed : Int

/-- The training dataloader: the cluster dataset plus the
`torch.utils.data.DataLoader` arguments (`batch_size=None`, `shuffle=False`,
and the stored train loader kwargs). -/
structure TrainLoader where
  dataset : ClusterDatasetArgs
  batch_size : Option Nat
  shuffle : Bool
  kwargs : Nat

/-- Embedding of `DeduplicationDataModule.train_dataloader` (lines 107-127).
`trainer` is the ambient `self.trainer` attribute: `some epoch` when a
trainer with that current epoch is attached, `none` otherwise; the dataset
seed is `random_seed + current_epoch` in the first case and `random_seed`
in the second. -/
def DeduplicationDataModule.trainDataloader (dm : DeduplicationDataModule)
    (trainer : Option Nat) : TrainLoader :=
  { dataset :=
      { row_dict := dm.train_row_dict
        cluster_attr := dm.cluster_attr
        row_numericalizer := dm.row_numericalizer
        batch_size := dm.batch_size
        max_cluster_size_in_batch := dm.batch_size / 3
        random_seed :=
          match trainer with
          | some current_epoch => dm.random_seed + current_epoch
          | none => dm.random_seed }
    batch_size := none
    shuffle := false
    kwargs := dm.train_loader_kwargs }

/-- The arguments the data modules pass to `RowDataset` (the class lives
outside the verified sources). -/
structure RowDatasetArgs where
  row_dict : RowDict
  row_numericalizer : Nat
  batch_size : Nat

/-- An evaluation dataloader: the row dataset plus the DataLoader arguments
(`batch_size=None`, `shuffle=False`, and the stored eval loader kwargs). -/
structure EvalLoader where
  dataset : RowDatasetArgs
  batch_size : Option Nat
  shuffle : Bool
  kwargs : Nat

/-- Embedding of `DeduplicationDataModule.val_dataloader` (lines 129-141).
The method never reads `self.trainer` or `self.random_seed`; the unused
`trainer` argument records the ambient trainer state it may be called in. -/
def DeduplicationDataModule.valDataloader (dm : DeduplicationDataModule)
    (_trainer : Option Nat) : EvalLoader :=
  { dataset :=
      { row_dict := dm.valid_row_dict
        row_numericalizer := dm.row_numericalizer
        batch_size := dm.eval_batch_size }
    batch_size := none
    shuffle := false
    kwargs := dm.eval_loader_kwargs }

/-- Embedding of `DeduplicationDataModule.test_dataloader` (lines 143-155),
analogous to `val_dataloader` but over the test row dict. -/
def DeduplicationDataModule.testDataloader (dm : DeduplicationDataModule)
    (_trainer : Option Nat) : EvalLoader :=
  { dataset :=
      { row_dict := dm.test_row_dict
        row_numericalizer := dm.row_numericalizer
        batch_size := dm.eval_batch_size }
    batch_size := none
    shuffle := false
    kwargs := dm.eval_loader_kwargs }

/-- Embedding of `LinkageDataModule`'s attribute state after `__init__`
(data_modules.py lines 158-200). -/
structure LinkageDataModule where
  row_numericalizer : Nat
  batch_size : Nat
  eval_batch_size : Nat
  train_loader_kwargs : Nat
  eval_loader_kwargs : Nat
  random_seed : Int
  train_row_dict : RowDict
  valid_row_dict : RowDict
  test_row_dict : RowDict
  source_attr : String
  left_source : String
  cluster_attr : String
  train_pos_pair_set : Option (Finset (Nat × Nat))
  valid_pos_pair_set : Option (Finset (Nat × Nat))
  test_pos_pair_set : Option (Finset (Nat × Nat))

/-- Embedding of `LinkageDataModule.__init__` (lines 159-200): identical leak
check to the deduplication module, then attribute assignment with the three
positive-pair attributes set to `None`. -/
def LinkageDataModule.init (train_row_dict valid_row_dict test_row_dict : RowDict)
    (source_attr left_source cluster_attr : String)
    (row_numericalizer batch_size eval_batch_size : Nat)
    (train_loader_kwargs eval_loader_kwargs : Nat) (random_seed : Int)
    (check_for_common_rows : Bool) :
    Except DataError LinkageDataModule :=
  let checked : Except DataError Unit :=
    if check_for_common_rows then
      checkForCommonRows train_row_dict valid_row_dict test_row_dict
    else
      .ok ()
  match checked with
  | .error e => .error e
  | .ok _ => .ok
      { row_numericalizer := row_numericalizer
        batch_size := batch_size
        eval_batch_size := eval_batch_size
        train_loader_kwargs := train_loader_kwargs
        eval_loader_kwargs := eval_loader_kwargs
        random_seed := random_seed
        train_row_dict := train_row_dict
        valid_row_dict := valid_row_dict
        test_row_dict := test_row_dict
        source_attr := source_attr
        left_source := left_source
        cluster_attr := cluster_attr
        train_pos_pair_set := none
        valid_pos_pair_set := none
        test_pos_pair_set := none }

/-- Embedding of `LinkageDataModule._set_pair_sets` (lines 202-238): the
`fit` stage splits the train and valid row dicts into left/right ID sets,
builds their cluster dicts, and recomputes the train and valid pair sets;
the `test` stage does the same for the test row dict; any other stage
changes nothing. -/
def LinkageDataModule.setPairSets (dm : LinkageDataModule)
    (stage : Option String) : LinkageDataModule :=
  if stage = some "fit" then
    { dm with
      train_pos_pair_set :=
        some (linkagePairs dm.train_row_dict dm.cluster_attr dm.source_attr dm.left_source)
      valid_pos_pair_set :=
        some (linkagePairs dm.valid_row_dict dm.cluster_attr dm.source_attr dm.left_source) }
  else if stage = some "test" then
    { dm with
      test_pos_pair_set :=
        some (linkagePairs dm.test_row_dict dm.cluster_attr dm.source_attr dm.left_source) }
  else
    dm

/-- Embedding of `LinkageDataModule.setup` (lines 240-247): delegates to
`_set_pair_sets` (the rest only logs pair counts). -/
def LinkageDataModule.setup (dm : LinkageDataModule)
    (stage : Option String) : LinkageDataModule :=
  dm.setPairSets stage

/-- Embedding of `LinkageDataModule.train_dataloader` (lines 249-269), the
same construction as the deduplication module's. -/
def LinkageDataModule.trainDataloader (dm : LinkageDataModule)
    (trainer : Option Nat) : TrainLoader :=
  { dataset :=
      { row_dict := dm.train_row_dict
        cluster_attr := dm.cluster_attr
        row_numericalizer := dm.row_numericalizer
        batch_size := dm.batch_size
        max_cluster_size_in_batch := dm.batch_size / 3
        random_seed :=
          match trainer with
          | some current_epoch => dm.random_seed + current_epoch
          | none => dm.random_seed }
    batch_size := none
    shuffle := false
    kwargs := dm.train_loader_kwargs }

/-- Embedding of `LinkageDataModule.val_dataloader` (lines 271-283); it never
reads `self.trainer` or `self.random_seed`. -/
def LinkageDataModule.valDataloader (dm : LinkageDataModule)
    (_trainer : Option Nat) : EvalLoader :=
  { dataset :=
      { row_dict := dm.valid_row_dict
        row_numericalizer := dm.row_numericalizer
        batch_size := dm.eval_batch_size }
    batch_size := none
    shuffle := false
    kwargs := dm.eval_loader_kwargs }

/-- Embedding of `LinkageDataModule.test_dataloader` (lines 285-297). -/
def LinkageDataModule.testDataloader (dm : LinkageDataModule)
    (_trainer : Option Nat) : EvalLoader :=
  { dataset :=
      { row_dict := dm.test_row_dict
        row_numericalizer := dm.row_numericalizer
        batch_size := dm.eval_batch_size }
    batch_size := none
    shuffle := false
    kwargs := dm.eval_loader_kwargs }

/-- The arguments the pairwise module passes to `PairDataset` (the class
lives outside the verified sources). -/
structure PairDatasetArgs where
  row_dict : RowDict
  pos_pair_set : Finset (Nat × Nat)
  neg_pair_set : Finset (Nat × Nat)
  row_numericalizer : Nat
  batch_size : Nat
  random_seed : Option Int

/-- A pairwise dataloader: the pair dataset plus the DataLoader arguments. -/
structure PairLoader where
  dataset : PairDatasetArgs
  batch_size : Option Nat
  shuffle : Bool
  kwargs : Nat

/-- Embedding of `PairwiseDataModule`'s attribute state after `__init__`
(data_modules.py lines 300-332). -/
structure PairwiseDataModule where
  row_numericalizer : Nat
  batch_size : Nat
  eval_batch_size : Nat
  train_loader_kwargs : Nat
  eval_loader_kwargs : Nat
  random_seed : Int
  row_dict : RowDict
  train_pos_pair_set : Finset (Nat × Nat)
  valid_pos_pair_set : Finset (Nat × Nat)
  test_pos_pair_set : Finset (Nat × Nat)
  train_neg_pair_set : Finset (Nat × Nat)
  valid_neg_pair_set : Finset (Nat × Nat)
  test_neg_pair_set : Finset (Nat × Nat)

/-- Embedding of `PairwiseDataModule.__init__` (lines 301-332): plain
attribute assignment, no leak check. -/
def PairwiseDataModule.init (row_dict : RowDict)
    (row_numericalizer batch_size eval_batch_size : Nat)
    (train_pos_pair_set valid_pos_pair_set test_pos_pair_set : Finset (Nat × Nat))
    (train_neg_pair_set valid_neg_pair_set test_neg_pair_set : Finset (Nat × Nat))
    (train_loader_kwargs eval_loader_kwargs : Nat) (random_seed : Int) :
    PairwiseDataModule :=
  { row_numericalizer := row_numericalizer
    batch_size := batch_size
    eval_batch_size := eval_batch_size
    train_loader_kwargs := train_loader_kwargs
    eval_loader_kwargs := eval_loader_kwargs
    random_seed := random_seed
    row_dict := row_dict
    train_pos_pair_set := train_pos_pair_set
    valid_pos_pair_set := valid_pos_pair_set
    test_pos_pair_set := test_pos_pair_set
    train_neg_pair_set := train_neg_pair_set
    valid_neg_pair_set := valid_neg_pair_set
    test_neg_pair_set := test_neg_pair_set }

/-- Embedding of `PairwiseDataModule.train_dataloader` (lines 334-353): the
pair dataset is built with the training batch size and the epoch-shifted
seed, and loaded with the train loader kwargs. -/
def PairwiseDataModule.trainDataloader (dm : PairwiseDataModule)
    (trainer : Option Nat) : PairLoader :=
  { dataset :=
      { row_dict := dm.row_dict
        pos_pair_set := dm.train_pos_pair_set
        neg_pair_set := dm.train_neg_pair_set
        row_numericalizer := dm.row_numericalizer
        batch_size := dm.batch_size
        random_seed :=
          match trainer with
          | some current_epoch => some (dm.random_seed + current_epoch)
          | none => some dm.random_seed }
    batch_size := none
    shuffle := false
    kwargs := dm.train_loader_kwargs }

/-- Embedding of `PairwiseDataModule.val_dataloader` (lines 355-370): the
pair dataset is built with `batch_size=self.batch_size` (not
`eval_batch_size`) and `random_seed=None`, and loaded with the eval loader
kwargs. -/
def PairwiseDataModule.valDataloader (dm : PairwiseDataModule)
    (_trainer : Option Nat) : PairLoader :=
  { dataset :=
      { row_dict := dm.row_dict
        pos_pair_set := dm.valid_pos_pair_set
        neg_pair_set := dm.valid_neg_pair_set
        row_numericalizer := dm.row_numericalizer
        batch_size := dm.batch_size
        random_seed := none }
    batch_size := none
    shuffle := false
    kwargs := dm.eval_loader_kwargs }

/-- Embedding of `PairwiseDataModule.test_dataloader` (lines 372-387),
analogous to `val_dataloader` over the test pair sets. -/
def PairwiseDataModule.testDataloader (dm : PairwiseDataModule)
    (_trainer : Option Nat) : PairLoader :=
  { dataset :=
      { row_dict := dm.row_dict
        pos_pair_set := dm.test_pos_pair_set
        neg_pair_set := dm.test_neg_pair_set
        row_numericalizer := dm.row_numericalizer
        batch_size := dm.batch_size
        random_seed := none }
    batch_size := none
    shuffle := false
    kwargs := dm.eval_loader_kwargs }

/-- Python truthiness of an optional CLI string argument: `None` and the
empty string are falsy, any other string is truthy. -/
def truthy : Option String → Bool
  | none => false
  | some s => !(s = "")

/-- The `KeyError` message of `_is_record_linkage` (cli.py lines 66-75). -/
def recordLinkageKeyErrorMsg : String :=
  "You must provide BOTH source_attr and left_source to perform Record Linkage. Either remove both or provide both."

/-- Embedding of `_is_record_linkage` (cli.py lines 66-75): raises when
exactly one of `left_source` and `source_attr` is truthy, otherwise returns
the truthiness of `left_source`. -/
def isRecordLinkage (left_source source_attr : Option String) :
    Except String Bool :=
  if (truthy left_source && !truthy source_attr)
      || (!truthy left_source && truthy source_attr) then
    .error recordLinkageKeyErrorMsg
  else
    .ok (truthy left_source)

/-- The errors `_build_datamodule` can propagate: the `KeyError` from
`_is_record_linkage`, or the `ValueError` from the data-module leak check. -/
inductive CliError where
  | keyError (msg : String)
  | valueError (e : DataError)

/-- The data module selected and built by `_build_datamodule`. -/
inductive BuiltDataModule where
  | dedup (dm : DeduplicationDataModule)
  | linkage (dm : LinkageDataModule)

/-- Embedding of `_build_datamodule` (cli.py lines 78-111): the mode check
`_is_record_linkage` runs first, and only afterwards is the selected
data-module class constructed (with `check_for_common_rows` at its default
`True`). Loader kwargs and the seed default are fixed to the CLI defaults;
truthy `source_attr`/`left_source` values are passed through to the linkage
constructor. -/
def buildDatamodule (train_row_dict valid_row_dict test_row_dict : RowDict)
    (cluster_attr : String) (row_numericalizer batch_size eval_batch_size : Nat)
    (source_attr left_source : Option String) :
    Except CliError BuiltDataModule :=
  match isRecordLinkage left_source source_attr with
  | .error msg => .error (.keyError msg)
  | .ok true =>
    match LinkageDataModule.init train_row_dict valid_row_dict test_row_dict
        (source_attr.getD "") (left_source.getD "") cluster_attr
        row_numericalizer batch_size eval_batch_size 0 0 42 true with
    | .error e => .error (.valueError e)
    | .ok dm => .ok (.linkage dm)
  | .ok false =>
    match DeduplicationDataModule.init train_row_dict valid_row_dict test_row_dict
        cluster_attr row_numericalizer batch_size eval_batch_size 0 0 42 true with
    | .error e => .error (.valueError e)
    | .ok dm => .ok (.dedup dm)

/-- Example row: cluster label `c` and source value `s`. -/
def exRow (c s : String) : Row := fun a =>
  if a = "cluster" then c else if a = "source" then s else ""

/-- Example row assignment: rows 1 and 2 share cluster "10" (sources l/r),
row 3 is alone in cluster "20" (source l). -/
def exRowOf : Nat → Row
  | 1 => exRow "10" "l"
  | 2 => exRow "10" "r"
  | 3 => exRow "20" "l"
  | _ => exRow "0" ""

/-- Example train row dict with IDs 1, 2, 3. -/
def rdTrain : RowDict := { ids := {1, 2, 3}, row := exRowOf }

/-- Example valid row dict with IDs 4, 5, disjoint from `rdTrain`. -/
def rdValid : RowDict := { ids := {4, 5}, row := fun _ => exRow "30" "l" }

/-- Example test row dict with ID 6, disjoint from `rdTrain` and `rdValid`. -/
def rdTest : RowDict := { ids := {6}, row := fun _ => exRow "40" "r" }

/-- Example row dict sharing ID 1 with `rdTrain` (a leaky split). -/
def rdLeaky : RowDict := { ids := {1, 5}, row := exRowOf }

/-- Example deduplication data module over the example row dicts. -/
def dmDedupEx : DeduplicationDataModule :=
  { cluster_attr := "cluster"
    row_numericalizer := 0
    batch_size := 10
    eval_batch_size := 4
    train_loader_kwargs := 0
    eval_loader_kwargs := 0
    random_seed := 42
    train_row_dict := rdTrain
    valid_row_dict := rdValid
    test_row_dict := rdTest
    train_pos_pair_set := none
    valid_pos_pair_set := none
    test_pos_pair_set := none }

/-- A copy of `dmDedupEx` with a different random seed. -/
def dmDedupEx2 : DeduplicationDataModule := { dmDedupEx with random_seed := 7 }

/-- Example linkage data module over the example row dicts. -/
def dmLinkEx : LinkageDataModule :=
  { row_numericalizer := 0
    batch_size := 10
    eval_batch_size := 4
    train_loader_kwargs := 0
    eval_loader_kwargs := 0
    random_seed := 42
    train_row_dict := rdTrain
    valid_row_dict := rdValid
    test_row_dict := rdTest
    source_attr := "source"
    left_source := "l"
    cluster_attr := "cluster"
    train_pos_pair_set := none
    valid_pos_pair_set := none
    test_pos_pair_set := none }

/-- A copy of `dmLinkEx` with a different random seed. -/
def dmLinkEx2 : LinkageDataModule := { dmLinkEx with random_seed := 7 }

/-- Example pairwise data module. -/
def dmPairEx : PairwiseDataModule :=
  { row_numericalizer := 0
    batch_size := 10
    eval_batch_size := 4
    train_loader_kwargs := 0
    eval_loader_kwargs := 1
    random_seed := 42
    row_dict := rdTrain
    train_pos_pair_set := {(1, 2)}
    valid_pos_pair_set := {(1, 3)}
    test_pos_pair_set := {(2, 3)}
    train_neg_pair_set := {(1, 3)}
    valid_neg_pair_set := {(1, 2)}
    test_neg_pair_set := {(1, 2)} }

/-- A copy of `dmPairEx` with a different eval batch size. -/
def dmPairEx2 : PairwiseDataModule := { dmPairEx with eval_batch_size := 99 }

lemma clusterPairs_swap (C : Finset Nat) :
    (C ×ˢ C).filter (fun p => p.2 < p.1) = (clusterPairs C).image Prod.swap := by
  ext p
  simp only [clusterPairs, Finset.mem_image, Finset.mem_filter, Finset.mem_product]
  constructor
  · rintro ⟨⟨h1, h2⟩, hlt⟩
    exact ⟨(p.2, p.1), ⟨⟨h2, h1⟩, hlt⟩, rfl⟩
  · rintro ⟨q, ⟨⟨h1, h2⟩, hlt⟩, rfl⟩
    exact ⟨⟨h2, h1⟩, hlt⟩

lemma clusterPairs_union_offDiag (C : Finset Nat) :
    clusterPairs C ∪ (C ×ˢ C).filter (fun p => p.2 < p.1) = C.offDiag := by
  ext p
  simp only [clusterPairs, Finset.mem_union, Finset.mem_filter, Finset.mem_product,
    Finset.mem_offDiag]
  constructor
  · rintro (⟨⟨h1, h2⟩, h⟩ | ⟨⟨h1, h2⟩, h⟩)
    · exact ⟨h1, h2, Nat.ne_of_lt h⟩
    · exact ⟨h1, h2, (Nat.ne_of_lt h).symm⟩
  · rintro ⟨h1, h2, hne⟩
    rcases Nat.lt_or_ge p.1 p.2 with h | h
    · exact Or.inl ⟨⟨h1, h2⟩, h⟩
    · exact Or.inr ⟨⟨h1, h2⟩, Nat.lt_of_le_of_ne h (fun e => hne e.symm)⟩

lemma clusterPairs_card (C : Finset Nat) :
    (clusterPairs C).card = C.card * (C.card - 1) / 2 := by
  have hdisj : Disjoint (clusterPairs C) ((C ×ˢ C).filter (fun p => p.2 < p.1)) := by
    rw [Finset.disjoint_left]
    intro p hp hq
    simp only [clusterPairs, Finset.mem_filter] at hp hq
    omega
  have hcards := Finset.card_union_of_disjoint hdisj
  rw [clusterPairs_union_offDiag] at hcards
  have himg : ((C ×ˢ C).filter (fun p => p.2 < p.1)).card = (clusterPairs C).card := by
    rw [clusterPairs_swap]
    exact Finset.card_image_of_injective _ Prod.swap_injective
  have hoff := Finset.offDiag_card C
  have hmul : C.card * (C.card - 1) = C.card * C.card - C.card := by
    cases C.card with
    | zero => simp
    | succ m => rw [Nat.succ_sub_one, Nat.mul_succ, Nat.add_sub_cancel]
  rw [hmul]
  set k := C.card * C.card - C.card with hk
  omega

lemma left_right_not_mem (rd : RowDict) (sa ls : String) (i : Nat) :
    i ∈ leftIdSet rd sa ls → i ∉ rightIdSet rd sa ls := by
  simp only [leftIdSet, rightIdSet, Finset.mem_filter]
  tauto

lemma right_left_not_mem (rd : RowDict) (sa ls : String) (i : Nat) :
    i ∈ rightIdSet rd sa ls → i ∉ leftIdSet rd sa ls := by
  simp only [leftIdSet, rightIdSet, Finset.mem_filter]
  tauto

lemma checkForCommonRows_error_iff (a b c : RowDict) :
    (∃ e, checkForCommonRows a b c = .error e)
      ↔ (a.ids ∩ b.ids ≠ ∅ ∨ a.ids ∩ c.ids ≠ ∅ ∨ b.ids ∩ c.ids ≠ ∅) := by
  by_cases h1 : a.ids ∩ b.ids = ∅ <;>
    by_cases h2 : a.ids ∩ c.ids = ∅ <;>
    by_cases h3 : b.ids ∩ c.ids = ∅ <;>
    simp [checkForCommonRows, h1, h2, h3]

lemma checkForCommonRows_error_names (a b c : RowDict) (e : DataError) :
    checkForCommonRows a b c = .error e →
      (e = .commonRows "train_row_dict" "valid_row_dict" (a.ids ∩ b.ids) ∧ a.ids ∩ b.ids ≠ ∅)
      ∨ (e = .commonRows "train_row_dict" "test_row_dict" (a.ids ∩ c.ids) ∧ a.ids ∩ c.ids ≠ ∅)
      ∨ (e = .commonRows "valid_row_dict" "test_row_dict" (b.ids ∩ c.ids) ∧ b.ids ∩ c.ids ≠ ∅) := by
  by_cases h1 : a.ids ∩ b.ids = ∅ <;>
    by_cases h2 : a.ids ∩ c.ids = ∅ <;>
    by_cases h3 : b.ids ∩ c.ids = ∅ <;>
    simp [checkForCommonRows, h1, h2, h3] <;>
    intro he <;>
    simp [← he, h1, h2, h3]

/-- C3: in deduplication mode, the positive pair set built by setup is the
union over clusters of all unordered 2-combinations of each cluster's
members; a cluster with n members contributes exactly n·(n−1)/2 pairs, each
pair has both endpoints in the same cluster, no pair is a self-pair, and a
cluster of size 1 contributes no pairs. -/
theorem dedup_positive_pairs_spec (dm : DeduplicationDataModule) (rd : RowDict)
    (attr : String) (C : Finset Nat) :
    ((dm.setup (some "fit")).train_pos_pair_set
        = some (dedupPairs dm.train_row_dict dm.cluster_attr))
    ∧ ((dm.setup (some "fit")).valid_pos_pair_set
        = some (dedupPairs dm.valid_row_dict dm.cluster_attr))
    ∧ ((dm.setup (some "test")).test_pos_pair_set
        = some (dedupPairs dm.test_row_dict dm.cluster_attr))
    ∧ (dedupPairs rd attr
        = (clusterLabels rd attr).biUnion (fun c => clusterPairs (clusterMembers rd attr c)))
    ∧ ((clusterPairs C).card = C.card * (C.card - 1) / 2)
    ∧ (∀ p ∈ clusterPairs C, p.1 ∈ C ∧ p.2 ∈ C ∧ p.1 ≠ p.2)
    ∧ (∀ p ∈ dedupPairs rd attr, ∃ c,
        p.1 ∈ clusterMembers rd attr c ∧ p.2 ∈ clusterMembers rd attr c)
    ∧ (C.card = 1 → clusterPairs C = ∅) := by
  refine ⟨rfl, rfl, rfl, rfl, clusterPairs_card C, ?_, ?_, ?_⟩
  · intro p hp
    simp only [clusterPairs, Finset.mem_filter, Finset.mem_product] at hp
    exact ⟨hp.1.1, hp.1.2, Nat.ne_of_lt hp.2⟩
  · intro p hp
    simp only [dedupPairs, Finset.mem_biUnion] at hp
    obtain ⟨c, _, hp⟩ := hp
    simp only [clusterPairs, Finset.mem_filter, Finset.mem_product] at hp
    exact ⟨c, hp.1.1, hp.1.2⟩
  · intro h
    have hcard := clusterPairs_card C
    rw [h] at hcard
    simpa using Finset.card_eq_zero.mp hcard

/-- Witness for C3 at concrete inputs: the pair (1, 2) of the two-element
cluster set has both endpoints in the cluster and is not a self-pair, and
the singleton cluster set contributes no pairs. -/
theorem dedup_positive_pairs_spec_witness :
    ((1, 2) ∈ clusterPairs ({1, 2} : Finset Nat)
      ∧ ((1 : Nat) ∈ ({1, 2} : Finset Nat) ∧ (2 : Nat) ∈ ({1, 2} : Finset Nat)
          ∧ (1 : Nat) ≠ 2))
    ∧ (({7} : Finset Nat).card = 1 ∧ clusterPairs ({7} : Finset Nat) = ∅) :=
  ⟨⟨by decide,
    (dedup_positive_pairs_spec dmDedupEx rdTrain "cluster" {1, 2}).2.2.2.2.2.1
      (1, 2) (by decide)⟩,
   ⟨by decide,
    (dedup_positive_pairs_spec dmDedupEx rdTrain "cluster" {7}).2.2.2.2.2.2.2
      (by decide)⟩⟩

/-- C2: in linkage mode, the positive pair set built by setup equals the
union over clusters of all pairs (l, r) with l in cluster ∩ left and r in
cluster ∩ right; every positive pair has exactly one endpoint in the left
set and one in the right set, same-side pairs are never produced, and a
cluster whose members all lie on one side contributes zero pairs. -/
theorem linkage_positive_pairs_spec (dm : LinkageDataModule) (rd : RowDict)
    (attr sa ls : String) :
    ((dm.setup (some "fit")).train_pos_pair_set
        = some (linkagePairs dm.train_row_dict dm.cluster_attr dm.source_attr dm.left_source))
    ∧ ((dm.setup (some "fit")).valid_pos_pair_set
        = some (linkagePairs dm.valid_row_dict dm.cluster_attr dm.source_attr dm.left_source))
    ∧ ((dm.setup (some "test")).test_pos_pair_set
        = some (linkagePairs dm.test_row_dict dm.cluster_attr dm.source_attr dm.left_source))
    ∧ (linkagePairs rd attr sa ls
        = (clusterLabels rd attr).biUnion (fun c =>
            (clusterMembers rd attr c ∩ leftIdSet rd sa ls)
              ×ˢ (clusterMembers rd attr c ∩ rightIdSet rd sa ls)))
    ∧ (∀ p ∈ linkagePairs rd attr sa ls,
        p.1 ∈ leftIdSet rd sa ls ∧ p.2 ∈ rightIdSet rd sa ls
          ∧ p.1 ∉ rightIdSet rd sa ls ∧ p.2 ∉ leftIdSet rd sa ls)
    ∧ (∀ a b, a ∈ leftIdSet rd sa ls → b ∈ leftIdSet rd sa ls →
        (a, b) ∉ linkagePairs rd attr sa ls)
    ∧ (∀ a b, a ∈ rightIdSet rd sa ls → b ∈ rightIdSet rd sa ls →
        (a, b) ∉ linkagePairs rd attr sa ls)
    ∧ (∀ c : String,
        (clusterMembers rd attr c ⊆ leftIdSet rd sa ls
          ∨ clusterMembers rd attr c ⊆ rightIdSet rd sa ls) →
        clusterPairsLR (clusterMembers rd attr c)
          (leftIdSet rd sa ls) (rightIdSet rd sa ls) = ∅) := by
  have hmem : ∀ p ∈ linkagePairs rd attr sa ls,
      p.1 ∈ leftIdSet rd sa ls ∧ p.2 ∈ rightIdSet rd sa ls
        ∧ p.1 ∉ rightIdSet rd sa ls ∧ p.2 ∉ leftIdSet rd sa ls := by
    intro p hp
    simp only [linkagePairs, Finset.mem_biUnion] at hp
    obtain ⟨c, _, hp⟩ := hp
    simp only [clusterPairsLR, Finset.mem_product, Finset.mem_inter] at hp
    exact ⟨hp.1.2, hp.2.2,
      left_right_not_mem rd sa ls p.1 hp.1.2,
      right_left_not_mem rd sa ls p.2 hp.2.2⟩
  refine ⟨rfl, rfl, rfl, rfl, hmem, ?_, ?_, ?_⟩
  · intro a b ha hb hp
    exact (hmem (a, b) hp).2.2.2 hb
  · intro a b ha hb hp
    exact right_left_not_mem rd sa ls a ha (hmem (a, b) hp).1
  · intro c hc
    rcases hc with hc | hc
    · have hempty : clusterMembers rd attr c ∩ rightIdSet rd sa ls = ∅ := by
        rw [Finset.eq_empty_iff_forall_not_mem]
        intro i hi
        rw [Finset.mem_inter] at hi
        exact left_right_not_mem rd sa ls i (hc hi.1) hi.2
      rw [clusterPairsLR, hempty, Finset.product_empty]
    · have hempty : clusterMembers rd attr c ∩ leftIdSet rd sa ls = ∅ := by
        rw [Finset.eq_empty_iff_forall_not_mem]
        intro i hi
        rw [Finset.mem_inter] at hi
        exact right_left_not_mem rd sa ls i (hc hi.1) hi.2
      rw [clusterPairsLR, hempty, Finset.empty_product]

/-- Witness for C2 at concrete inputs: in the example linkage data, pair
(1, 2) crosses sides with 1 on the left and 2 on the right, and cluster "20"
(entirely on the left side) contributes zero pairs. -/
theorem linkage_positive_pairs_spec_witness :
    ((1, 2) ∈ linkagePairs rdTrain "cluster" "source" "l"
      ∧ ((1 : Nat) ∈ leftIdSet rdTrain "source" "l"
          ∧ (2 : Nat) ∈ rightIdSet rdTrain "source" "l"
          ∧ (1 : Nat) ∉ rightIdSet rdTrain "source" "l"
          ∧ (2 : Nat) ∉ leftIdSet rdTrain "source" "l"))
    ∧ (clusterMembers rdTrain "cluster" "20" ⊆ leftIdSet rdTrain "source" "l"
      ∧ clusterPairsLR (clusterMembers rdTrain "cluster" "20")
          (leftIdSet rdTrain "source" "l") (rightIdSet rdTrain "source" "l") = ∅) :=
  ⟨⟨by decide,
    (linkage_positive_pairs_spec dmLinkEx rdTrain "cluster" "source" "l").2.2.2.2.1
      (1, 2) (by decide)⟩,
   ⟨by decide,
    (linkage_positive_pairs_spec dmLinkEx rdTrain "cluster" "source" "l").2.2.2.2.2.2.2
      "20" (Or.inl (by decide))⟩⟩

/-- C6: for both data modules, setup with stage "fit" assigns the train and
valid pair sets (recomputed from the train and valid row dicts) and leaves
the test pair set unchanged; stage "test" assigns the test pair set and
leaves train and valid unchanged; re-entering a stage replaces that stage's
pair sets wholesale with the recomputed values. -/
theorem setup_stage_frame (d : DeduplicationDataModule) (l : LinkageDataModule) :
    ((d.setup (some "fit")).test_pos_pair_set = d.test_pos_pair_set)
    ∧ ((d.setup (some "fit")).train_pos_pair_set
        = some (dedupPairs d.train_row_dict d.cluster_attr))
    ∧ ((d.setup (some "fit")).valid_pos_pair_set
        = some (dedupPairs d.valid_row_dict d.cluster_attr))
    ∧ ((d.setup (some "test")).train_pos_pair_set = d.train_pos_pair_set)
    ∧ ((d.setup (some "test")).valid_pos_pair_set = d.valid_pos_pair_set)
    ∧ ((d.setup (some "test")).test_pos_pair_set
        = some (dedupPairs d.test_row_dict d.cluster_attr))
    ∧ (((d.setup (some "fit")).setup (some "fit")).train_pos_pair_set
        = some (dedupPairs d.train_row_dict d.cluster_attr))
    ∧ (((d.setup (some "test")).setup (some "test")).test_pos_pair_set
        = some (dedupPairs d.test_row_dict d.cluster_attr))
    ∧ ((l.setup (some "fit")).test_pos_pair_set = l.test_pos_pair_set)
    ∧ ((l.setup (some "fit")).train_pos_pair_set
        = some (linkagePairs l.train_row_dict l.cluster_attr l.source_attr l.left_source))
    ∧ ((l.setup (some "fit")).valid_pos_pair_set
        = some (linkagePairs l.valid_row_dict l.cluster_attr l.source_attr l.left_source))
    ∧ ((l.setup (some "test")).train_pos_pair_set = l.train_pos_pair_set)
    ∧ ((l.setup (some "test")).valid_pos_pair_set = l.valid_pos_pair_set)
    ∧ ((l.setup (some "test")).test_pos_pair_set
        = some (linkagePairs l.test_row_dict l.cluster_attr l.source_attr l.left_source))
    ∧ (((l.setup (some "fit")).setup (some "fit")).train_pos_pair_set
        = some (linkagePairs l.train_row_dict l.cluster_attr l.source_attr l.left_source))
    ∧ (((l.setup (some "test")).setup (some "test")).test_pos_pair_set
        = some (linkagePairs l.test_row_dict l.cluster_attr l.source_attr l.left_source)) :=
  ⟨rfl, rfl, rfl, rfl, rfl, rfl, rfl, rfl, rfl, rfl, rfl, rfl, rfl, rfl, rfl, rfl⟩

/-- C4: for both data modules, each call to train_dataloader builds the
training cluster dataset with seed random_seed + current_epoch when a
trainer is attached and random_seed alone when not; identical
(random_seed, epoch) give the same seed and different epochs with the same
base seed give different seeds. -/
theorem train_dataloader_seed (d d2 : DeduplicationDataModule)
    (l l2 : LinkageDataModule) (e e1 e2 : Nat) :
    ((d.trainDataloader (some e)).dataset.random_seed = d.random_seed + e)
    ∧ ((d.trainDataloader none).dataset.random_seed = d.random_seed)
    ∧ (d.random_seed = d2.random_seed →
        (d.trainDataloader (some e)).dataset.random_seed
          = (d2.trainDataloader (some e)).dataset.random_seed)
    ∧ (e1 ≠ e2 →
        (d.trainDataloader (some e1)).dataset.random_seed
          ≠ (d.trainDataloader (some e2)).dataset.random_seed)
    ∧ ((l.trainDataloader (some e)).dataset.random_seed = l.random_seed + e)
    ∧ ((l.trainDataloader none).dataset.random_seed = l.random_seed)
    ∧ (l.random_seed = l2.random_seed →
        (l.trainDataloader (some e)).dataset.random_seed
          = (l2.trainDataloader (some e)).dataset.random_seed)
    ∧ (e1 ≠ e2 →
        (l.trainDataloader (some e1)).dataset.random_seed
          ≠ (l.trainDataloader (some e2)).dataset.random_seed) := by
  refine ⟨rfl, rfl, ?_, ?_, rfl, rfl, ?_, ?_⟩
  · intro h
    simp only [DeduplicationDataModule.trainDataloader, h]
  · intro hne h
    simp only [DeduplicationDataModule.trainDataloader] at h
    exact hne (by omega)
  · intro h
    simp only [LinkageDataModule.trainDataloader, h]
  · intro hne h
    simp only [LinkageDataModule.trainDataloader] at h
    exact hne (by omega)

/-- Witness for C4 at concrete inputs: two example modules with equal seed 42
agree at epoch 3, and epochs 0 and 1 give different seeds. -/
theorem train_dataloader_seed_witness :
    (dmDedupEx.random_seed = dmDedupEx.random_seed
      ∧ (dmDedupEx.trainDataloader (some 3)).dataset.random_seed
          = (dmDedupEx.trainDataloader (some 3)).dataset.random_seed)
    ∧ ((0 : Nat) ≠ 1
      ∧ (dmLinkEx.trainDataloader (some 0)).dataset.random_seed
          ≠ (dmLinkEx.trainDataloader (some 1)).dataset.random_seed) :=
  ⟨⟨rfl,
    (train_dataloader_seed dmDedupEx dmDedupEx dmLinkEx dmLinkEx 3 0 1).2.2.1 rfl⟩,
   ⟨by decide,
    (train_dataloader_seed dmDedupEx dmDedupEx dmLinkEx dmLinkEx 3 0 1).2.2.2.2.2.2.2
      (by decide)⟩⟩

/-- C5: for both data modules, every call to train_dataloader builds the
training cluster dataset with max_cluster_size_in_batch equal to the floor
of batch_size divided by three. -/
theorem train_dataloader_cluster_cap (d : DeduplicationDataModule)
    (l : LinkageDataModule) (t : Option Nat) :
    ((d.trainDataloader t).dataset.max_cluster_size_in_batch = d.batch_size / 3)
    ∧ ((l.trainDataloader t).dataset.max_cluster_size_in_batch = l.batch_size / 3) :=
  ⟨rfl, rfl⟩

/-- C7: for both data modules, val_dataloader and test_dataloader are
seed-independent and unshuffled: they build a row dataset over the stage's
row dict with batch size eval_batch_size and shuffle disabled, and two
modules agreeing on the row dicts, numericalizer, eval batch size and eval
loader kwargs (but with any random seeds and any ambient trainer states)
build identical dataloaders. -/
theorem eval_dataloaders_deterministic (d d2 : DeduplicationDataModule)
    (l l2 : LinkageDataModule) (t t2 : Option Nat) :
    ((d.valDataloader t).shuffle = false)
    ∧ ((d.valDataloader t).dataset.batch_size = d.eval_batch_size)
    ∧ ((d.valDataloader t).dataset.row_dict = d.valid_row_dict)
    ∧ ((d.testDataloader t).shuffle = false)
    ∧ ((d.testDataloader t).dataset.batch_size = d.eval_batch_size)
    ∧ ((d.testDataloader t).dataset.row_dict = d.test_row_dict)
    ∧ (d.valid_row_dict = d2.valid_row_dict → d.test_row_dict = d2.test_row_dict →
        d.row_numericalizer = d2.row_numericalizer →
        d.eval_batch_size = d2.eval_batch_size →
        d.eval_loader_kwargs = d2.eval_loader_kwargs →
        d.valDataloader t = d2.valDataloader t2
          ∧ d.testDataloader t = d2.testDataloader t2)
    ∧ ((l.valDataloader t).shuffle = false)
    ∧ ((l.valDataloader t).dataset.batch_size = l.eval_batch_size)
    ∧ ((l.valDataloader t).dataset.row_dict = l.valid_row_dict)
    ∧ ((l.testDataloader t).shuffle = false)
    ∧ ((l.testDataloader t).dataset.batch_size = l.eval_batch_size)
    ∧ ((l.testDataloader t).dataset.row_dict = l.test_row_dict)
    ∧ (l.valid_row_dict = l2.valid_row_dict → l.test_row_dict = l2.test_row_dict →
        l.row_numericalizer = l2.row_numericalizer →
        l.eval_batch_size = l2.eval_batch_size →
        l.eval_loader_kwargs = l2.eval_loader_kwargs →
        l.valDataloader t = l2.valDataloader t2
          ∧ l.testDataloader t = l2.testDataloader t2) := by
  refine ⟨rfl, rfl, rfl, rfl, rfl, rfl, ?_, rfl, rfl, rfl, rfl, rfl, rfl, ?_⟩
  · intro h1 h2 h3 h4 h5
    constructor
    · simp only [DeduplicationDataModule.valDataloader, h1, h3, h4, h5]
    · simp only [DeduplicationDataModule.testDataloader, h2, h3, h4, h5]
  · intro h1 h2 h3 h4 h5
    constructor
    · simp only [LinkageDataModule.valDataloader, h1, h3, h4, h5]
    · simp only [LinkageDataModule.testDataloader, h2, h3, h4, h5]

/-- Witness for C7 at concrete inputs: the example modules with seeds 42 and
7 (all other fields equal) build identical validation and test dataloaders,
in any ambient trainer states. -/
theorem eval_dataloaders_deterministic_witness :
    (dmDedupEx.valDataloader (some 5) = dmDedupEx2.valDataloader none
      ∧ dmDedupEx.testDataloader (some 5) = dmDedupEx2.testDataloader none)
    ∧ (dmLinkEx.valDataloader (some 5) = dmLinkEx2.valDataloader none
      ∧ dmLinkEx.testDataloader (some 5) = dmLinkEx2.testDataloader none) :=
  ⟨(eval_dataloaders_deterministic dmDedupEx dmDedupEx2 dmLinkEx dmLinkEx2
      (some 5) none).2.2.2.2.2.2.1 rfl rfl rfl rfl rfl,
   (eval_dataloaders_deterministic dmDedupEx dmDedupEx2 dmLinkEx dmLinkEx2
      (some 5) none).2.2.2.2.2.2.2.2.2.2.2.2.2 rfl rfl rfl rfl rfl⟩

/-- C1: with the common-rows check enabled, constructing either data module
errors if and only if some pair of the three row dicts' ID sets intersects;
the error names the offending pair of splits and the intersecting ID set;
and construction never assigns any positive-pair set, so on failure all
three are still unset. -/
theorem leak_check_on_init (train valid test : RowDict) (ca sa ls : String)
    (rn bs ebs tlk elk : Nat) (rs : Int) :
    ((∃ e, DeduplicationDataModule.init train valid test ca rn bs ebs tlk elk rs true
        = .error e)
      ↔ (train.ids ∩ valid.ids ≠ ∅ ∨ train.ids ∩ test.ids ≠ ∅
          ∨ valid.ids ∩ test.ids ≠ ∅))
    ∧ (∀ e, DeduplicationDataModule.init train valid test ca rn bs ebs tlk elk rs true
        = .error e →
        (e = .commonRows "train_row_dict" "valid_row_dict" (train.ids ∩ valid.ids)
            ∧ train.ids ∩ valid.ids ≠ ∅)
        ∨ (e = .commonRows "train_row_dict" "test_row_dict" (train.ids ∩ test.ids)
            ∧ train.ids ∩ test.ids ≠ ∅)
        ∨ (e = .commonRows "valid_row_dict" "test_row_dict" (valid.ids ∩ test.ids)
            ∧ valid.ids ∩ test.ids ≠ ∅))
    ∧ (∀ dm, DeduplicationDataModule.init train valid test ca rn bs ebs tlk elk rs true
        = .ok dm →
        dm.train_pos_pair_set = none ∧ dm.valid_pos_pair_set = none
          ∧ dm.test_pos_pair_set = none)
    ∧ ((∃ e, LinkageDataModule.init train valid test sa ls ca rn bs ebs tlk elk rs true
        = .error e)
      ↔ (train.ids ∩ valid.ids ≠ ∅ ∨ train.ids ∩ test.ids ≠ ∅
          ∨ valid.ids ∩ test.ids ≠ ∅))
    ∧ (∀ e, LinkageDataModule.init train valid test sa ls ca rn bs ebs tlk elk rs true
        = .error e →
        (e = .commonRows "train_row_dict" "valid_row_dict" (train.ids ∩ valid.ids)
            ∧ train.ids ∩ valid.ids ≠ ∅)
        ∨ (e = .commonRows "train_row_dict" "test_row_dict" (train.ids ∩ test.ids)
            ∧ train.ids ∩ test.ids ≠ ∅)
        ∨ (e = .commonRows "valid_row_dict" "test_row_dict" (valid.ids ∩ test.ids)
            ∧ valid.ids ∩ test.ids ≠ ∅))
    ∧ (∀ dm, LinkageDataModule.init train valid test sa ls ca rn bs ebs tlk elk rs true
        = .ok dm →
        dm.train_pos_pair_set = none ∧ dm.valid_pos_pair_set = none
          ∧ dm.test_pos_pair_set = none) := by
  have hiff := checkForCommonRows_error_iff train valid test
  cases hchk : checkForCommonRows train valid test with
  | error e =>
    refine ⟨?_, ?_, ?_, ?_, ?_, ?_⟩
    · rw [← hiff]
      simp [DeduplicationDataModule.init, hchk]
    · intro e2 he2
      simp [DeduplicationDataModule.init, hchk] at he2
      exact he2 ▸ checkForCommonRows_error_names train valid test e hchk
    · intro dm hdm
      simp [DeduplicationDataModule.init, hchk] at hdm
    · rw [← hiff]
      simp [LinkageDataModule.init, hchk]
    · intro e2 he2
      simp [LinkageDataModule.init, hchk] at he2
      exact he2 ▸ checkForCommonRows_error_names train valid test e hchk
    · intro dm hdm
      simp [LinkageDataModule.init, hchk] at hdm
  | ok u =>
    refine ⟨?_, ?_, ?_, ?_, ?_, ?_⟩
    · rw [← hiff]
      simp [DeduplicationDataModule.init, hchk]
    · intro e2 he2
      simp [DeduplicationDataModule.init, hchk] at he2
    · intro dm hdm
      simp [DeduplicationDataModule.init, hchk] at hdm
      subst hdm
      exact ⟨rfl, rfl, rfl⟩
    · rw [← hiff]
      simp [LinkageDataModule.init, hchk]
    · intro e2 he2
      simp [LinkageDataModule.init, hchk] at he2
    · intro dm hdm
      simp [LinkageDataModule.init, hchk] at hdm
      subst hdm
      exact ⟨rfl, rfl, rfl⟩

/-- Witness for C1 at concrete inputs: constructing the deduplication module
with a valid split that shares ID 1 with the train split errors, because the
train/valid intersection is non-empty. -/
theorem leak_check_on_init_witness :
    ∃ e, DeduplicationDataModule.init rdTrain rdLeaky rdTest "cluster" 0 10 4 0 0 42 true
      = .error e :=
  (leak_check_on_init rdTrain rdLeaky rdTest "cluster" "source" "l" 0 10 4 0 0 42).1.mpr
    (Or.inl (by decide))

/-- C10: constructing either data module with check_for_common_rows set to
False always succeeds (for all row dicts, in particular ones sharing IDs):
the leakage check is an opt-out keyword argument, not unconditional. -/
theorem init_without_check (train valid test : RowDict) (ca sa ls : String)
    (rn bs ebs tlk elk : Nat) (rs : Int) :
    (∃ dm, DeduplicationDataModule.init train valid test ca rn bs ebs tlk elk rs false
        = .ok dm)
    ∧ (∃ dm, LinkageDataModule.init train valid test sa ls ca rn bs ebs tlk elk rs false
        = .ok dm) :=
  ⟨⟨_, rfl⟩, ⟨_, rfl⟩⟩

/-- C8: in the CLI, the mode check errors exactly when one of source_attr
and left_source is truthy and the other is not, and it does so before any
data-module construction (the result is the KeyError for all row dicts,
leaky or not); when both are truthy the CLI selects linkage mode, and when
neither is truthy it selects deduplication mode, the mode check raising
nothing in either case. -/
theorem record_linkage_mode_check (train valid test : RowDict) (ca : String)
    (rn bs ebs : Nat) (sa ls : Option String) :
    (truthy ls ≠ truthy sa →
      isRecordLinkage ls sa = .error recordLinkageKeyErrorMsg
      ∧ buildDatamodule train valid test ca rn bs ebs sa ls
          = .error (.keyError recordLinkageKeyErrorMsg))
    ∧ (truthy ls = true → truthy sa = true →
      isRecordLinkage ls sa = .ok true
      ∧ (∀ b, buildDatamodule train valid test ca rn bs ebs sa ls = .ok b →
          ∃ ldm, b = .linkage ldm)
      ∧ (∀ err, buildDatamodule train valid test ca rn bs ebs sa ls = .error err →
          ∃ e, err = .valueError e))
    ∧ (truthy ls = false → truthy sa = false →
      isRecordLinkage ls sa = .ok false
      ∧ (∀ b, buildDatamodule train valid test ca rn bs ebs sa ls = .ok b →
          ∃ ddm, b = .dedup ddm)
      ∧ (∀ err, buildDatamodule train valid test ca rn bs ebs sa ls = .error err →
          ∃ e, err = .valueError e)) := by
  refine ⟨?_, ?_, ?_⟩
  · intro hne
    cases hl : truthy ls <;> cases hs : truthy sa <;>
      simp_all [isRecordLinkage, buildDatamodule]
  · intro hl hs
    have hrl : isRecordLinkage ls sa = .ok true := by
      simp [isRecordLinkage, hl, hs]
    refine ⟨hrl, ?_, ?_⟩
    · intro b
      simp only [buildDatamodule, hrl]
      cases hinit : LinkageDataModule.init train valid test (sa.getD "") (ls.getD "")
          ca rn bs ebs 0 0 42 true with
      | error e => simp
      | ok dm =>
        intro hb
        simp only [Except.ok.injEq] at hb
        exact ⟨dm, hb.symm⟩
    · intro err
      simp only [buildDatamodule, hrl]
      cases hinit : LinkageDataModule.init train valid test (sa.getD "") (ls.getD "")
          ca rn bs ebs 0 0 42 true with
      | error e =>
        intro herr
        simp only [Except.error.injEq] at herr
        exact ⟨e, herr.symm⟩
      | ok dm => simp
  · intro hl hs
    have hrl : isRecordLinkage ls sa = .ok false := by
      simp [isRecordLinkage, hl, hs]
    refine ⟨hrl, ?_, ?_⟩
    · intro b
      simp only [buildDatamodule, hrl]
      cases hinit : DeduplicationDataModule.init train valid test
          ca rn bs ebs 0 0 42 true with
      | error e => simp
      | ok dm =>
        intro hb
        simp only [Except.ok.injEq] at hb
        exact ⟨dm, hb.symm⟩
    · intro err
      simp only [buildDatamodule, hrl]
      cases hinit : DeduplicationDataModule.init train valid test
          ca rn bs ebs 0 0 42 true with
      | error e =>
        intro herr
        simp only [Except.error.injEq] at herr
        exact ⟨e, herr.symm⟩
      | ok dm => simp

/-- Witness for C8 at concrete inputs: supplying only source_attr errors
even on leaky row dicts; supplying neither selects deduplication mode;
supplying both selects linkage mode. -/
theorem record_linkage_mode_check_witness :
    (truthy none ≠ truthy (some "source")
      ∧ buildDatamodule rdTrain rdLeaky rdTest "cluster" 0 10 4 (some "source") none
          = .error (.keyError recordLinkageKeyErrorMsg))
    ∧ (truthy (none : Option String) = false
      ∧ isRecordLinkage none none = .ok false)
    ∧ (truthy (some "l") = true
      ∧ isRecordLinkage (some "l") (some "source") = .ok true) :=
  ⟨⟨by decide,
    ((record_linkage_mode_check rdTrain rdLeaky rdTest "cluster" 0 10 4
        (some "source") none).1 (by decide)).2⟩,
   ⟨by decide,
    ((record_linkage_mode_check rdTrain rdLeaky rdTest "cluster" 0 10 4
        none none).2.2 (by decide) (by decide)).1⟩,
   ⟨by decide,
    ((record_linkage_mode_check rdTrain rdLeaky rdTest "cluster" 0 10 4
        (some "source") (some "l")).2.1 (by decide) (by decide)).1⟩⟩

/-- C9: for every PairwiseDataModule, the validation and test dataloaders
build their pair dataset with the training batch_size and with random_seed
None; eval_batch_size is stored at construction but never used by any of
the three dataloader factories, and only the loader kwargs differ between
the train and eval sides. -/
theorem pairwise_eval_batching (p p2 : PairwiseDataModule) (t t2 : Option Nat)
    (rd : RowDict) (rn bs ebs : Nat)
    (tpos vpos tepos tneg vneg teneg : Finset (Nat × Nat))
    (tlk elk : Nat) (rs : Int) :
    ((PairwiseDataModule.init rd rn bs ebs tpos vpos tepos tneg vneg teneg
        tlk elk rs).eval_batch_size = ebs)
    ∧ ((p.valDataloader t).dataset.batch_size = p.batch_size)
    ∧ ((p.testDataloader t).dataset.batch_size = p.batch_size)
    ∧ ((p.valDataloader t).dataset.random_seed = none)
    ∧ ((p.testDataloader t).dataset.random_seed = none)
    ∧ ((p.valDataloader t).kwargs = p.eval_loader_kwargs)
    ∧ ((p.testDataloader t).kwargs = p.eval_loader_kwargs)
    ∧ ((p.trainDataloader t).kwargs = p.train_loader_kwargs)
    ∧ (p.row_numericalizer = p2.row_numericalizer → p.batch_size = p2.batch_size →
        p.train_loader_kwargs = p2.train_loader_kwargs →
        p.eval_loader_kwargs = p2.eval_loader_kwargs →
        p.random_seed = p2.random_seed → p.row_dict = p2.row_dict →
        p.train_pos_pair_set = p2.train_pos_pair_set →
        p.valid_pos_pair_set = p2.valid_pos_pair_set →
        p.test_pos_pair_set = p2.test_pos_pair_set →
        p.train_neg_pair_set = p2.train_neg_pair_set →
        p.valid_neg_pair_set = p2.valid_neg_pair_set →
        p.test_neg_pair_set = p2.test_neg_pair_set →
        p.trainDataloader t = p2.trainDataloader t
          ∧ p.valDataloader t = p2.valDataloader t2
          ∧ p.testDataloader t = p2.testDataloader t2) := by
  refine ⟨rfl, rfl, rfl, rfl, rfl, rfl, rfl, rfl, ?_⟩
  intro h1 h2 h3 h4 h5 h6 h7 h8 h9 h10 h11 h12
  refine ⟨?_, ?_, ?_⟩
  · simp only [PairwiseDataModule.trainDataloader, h1, h2, h3, h5, h6, h7, h10]
  · simp only [PairwiseDataModule.valDataloader, h1, h2, h4, h6, h8, h11]
  · simp only [PairwiseDataModule.testDataloader, h1, h2, h4, h6, h9, h12]

/-- Witness for C9 at concrete inputs: the example pairwise modules with
eval batch sizes 4 and 99 (all other fields equal) build identical train,
validation and test dataloaders. -/
theorem pairwise_eval_batching_witness :
    dmPairEx.trainDataloader (some 2) = dmPairEx2.trainDataloader (some 2)
    ∧ dmPairEx.valDataloader (some 2) = dmPairEx2.valDataloader none
    ∧ dmPairEx.testDataloader (some 2) = dmPairEx2.testDataloader none :=
  (pairwise_eval_batching dmPairEx dmPairEx2 (some 2) none rdTrain 0 10 4
    {(1, 2)} {(1, 3)} {(2, 3)} {(1, 3)} {(1, 2)} {(1, 2)} 0 1 42).2.2.2.2.2.2.2.2
    rfl rfl rfl rfl rfl rfl rfl rfl rfl rfl rfl rfl

end EntityEmbed
